import Mathlib

/-!
Shallow embedding of the trailarr events frontend layer:
the `EventsComponent` feed (filtering, display-count windowing, load-more,
request-parameter derivation, route-parameter seeding), the
`MediaEventsComponent` description mapping, and the `EventsService`
HTTP-parameter stripping (`filterParams`).

Strings are modelled with explicit character-list helpers so that all
definitions kernel-evaluate on concrete inputs.  JavaScript `||` on
possibly-null / possibly-empty strings is modelled by `jsOr`, template
interpolation of a nullable string by `interp`, and JS truthiness of an
optional string by `truthy`.
-/

namespace Trailarr

/-- JS string truthiness for an optional string: `null`/`undefined` and the
empty string are falsy. -/
def truthy : Option String → Bool
  | none => false
  | some s => s ≠ ""

/-- JS `v || d` where `v` is a nullable/optional string: yields `d` when `v`
is absent or empty, the stored string otherwise. -/
def jsOr : Option String → String → String
  | none, d => d
  | some s, d => if s = "" then d else s

/-- JS template interpolation of a nullable string: `null` renders as the
string "null". -/
def interp : Option String → String
  | none => "null"
  | some s => s

/-- Does `pat` occur at the head of `l`? (character-list helper for
JS `String.includes`). -/
def leadMatch : List Char → List Char → Bool
  | [], _ => true
  | _ :: _, [] => false
  | a :: as, b :: bs => a == b && leadMatch as bs

/-- Does `pat` occur anywhere inside `l`? -/
def hasSubList : List Char → List Char → Bool
  | pat, [] => leadMatch pat []
  | pat, b :: bs => leadMatch pat (b :: bs) || hasSubList pat bs

/-- JS `hay.includes(needle)`. -/
def includesStr (hay needle : String) : Bool :=
  hasSubList needle.data hay.data

/-- JS `s.toLowerCase()` (ASCII, which covers every string this layer
compares). -/
def lowerStr (s : String) : String :=
  String.mk (s.data.map Char.toLower)

/-- ASCII whitespace test used by `trimStr`. -/
def isWS (c : Char) : Bool :=
  c = ' ' || c = '\t' || c = '\n' || c = '\r'

/-- Drop leading whitespace from a character list. -/
def dropWS : List Char → List Char
  | [] => []
  | c :: cs => if isWS c then dropWS cs else c :: cs

/-- JS `s.trim()`: strip whitespace from both ends. -/
def trimStr (s : String) : String :=
  String.mk ((dropWS (dropWS s.data).reverse).reverse)

/-- JS `s.replaceAll('_', ' ')`. -/
def replaceUS (s : String) : String :=
  String.mk (s.data.map (fun c => if c = '_' then ' ' else c))

/-- The event record as read from the server (`EventRead`).  `event_type`
and `source` are plain strings at runtime (the TS enum is erased), which is
what lets the components' `default` branches fire on unrecognized values. -/
structure EventRead where
  id : Nat
  media_id : Nat
  event_type : String
  source : String
  source_detail : String
  old_value : Option String
  new_value : Option String
  created_at : String
deriving Repr, DecidableEq

/-- The string values of the `EventType` enum
(`Object.values(EventType)`). -/
def eventTypeValues : List String :=
  ["media_added", "monitor_changed", "youtube_id_changed", "trailer_detected",
   "trailer_downloaded", "trailer_deleted", "download_skipped"]

/-- JS `Map.get` on the id → title association (first binding wins). -/
def titleLookup (m : List (Nat × String)) (id : Nat) : Option String :=
  (m.find? (fun p => p.1 == id)).map (fun p => p.2)

/-- The reactive state of `EventsComponent`: search query, type/source
filters (`"all"` sentinel), display-count cutoff, upstream fetch limit,
the raw fetched event list and the externally supplied id → title map. -/
structure FeedState where
  searchQuery : String
  selectedEventType : String
  selectedEventSource : String
  displayCount : Nat
  limit : Nat
  allEvents : List EventRead
  mediaTitles : List (Nat × String)
deriving Repr, DecidableEq

/-- The component's initial state (`displayCount = 50`, `limit = 500`,
`'all'` filters, empty query, `defaultValue: []`). -/
def initialState : FeedState :=
  { searchQuery := ""
  , selectedEventType := "all"
  , selectedEventSource := "all"
  , displayCount := 50
  , limit := 500
  , allEvents := []
  , mediaTitles := [] }

/-- Embedding of `EventsComponent.getMediaTitle`: the map-stored title
`|| ` the placeholder string embedding the id. -/
def getMediaTitle (m : List (Nat × String)) (mediaId : Nat) : String :=
  jsOr (titleLookup m mediaId) ("Media #" ++ toString mediaId)

/-- The per-event match test inside `EventsComponent.filteredEvents`:
the (already lowercased) query is a substring of `source_detail`,
`old_value`, `new_value`, `event_type` with underscores replaced by
spaces, or the map-stored title of the owning media (empty when absent),
each lowercased. -/
def matchesQuery (titles : List (Nat × String)) (q : String) (e : EventRead) :
    Bool :=
  includesStr (lowerStr e.source_detail) q ||
  includesStr (lowerStr (e.old_value.getD "")) q ||
  includesStr (lowerStr (e.new_value.getD "")) q ||
  includesStr (replaceUS (lowerStr e.event_type)) q ||
  includesStr (lowerStr ((titleLookup titles e.media_id).getD "")) q

/-- Embedding of `EventsComponent.filteredEvents`: lowercase the query;
when it is non-empty and not all whitespace, keep only matching events;
truncate to `displayCount`. -/
def filteredEvents (s : FeedState) : List EventRead :=
  (if lowerStr s.searchQuery ≠ "" ∧
      (trimStr (lowerStr s.searchQuery)).length > 0 then
     s.allEvents.filter (matchesQuery s.mediaTitles (lowerStr s.searchQuery))
   else s.allEvents).take s.displayCount

/-- Embedding of `EventsComponent.loadMore`: when the display count already
covers the raw fetched list, grow the fetch limit by 500 if the raw count
reached it; otherwise reveal 30 more rows. -/
def loadMore (s : FeedState) : FeedState :=
  if s.displayCount ≥ s.allEvents.length then
    if s.allEvents.length ≥ s.limit then { s with limit := s.limit + 500 }
    else s
  else
    { s with displayCount := s.displayCount + 30 }

/-- The `resetDisplayCount` effect body: it reads the query and both filter
signals and sets `displayCount` to 50, so the reactive runtime re-runs it
after any of the three changes. -/
def resetDisplayCount (s : FeedState) : FeedState :=
  { s with displayCount := 50 }

/-- Setting the search-query signal; the `resetDisplayCount` effect runs
afterwards because the query is one of its dependencies. -/
def setSearchQuery (q : String) (s : FeedState) : FeedState :=
  resetDisplayCount { s with searchQuery := q }

/-- Setting the event-type filter signal, followed by the
`resetDisplayCount` effect. -/
def setSelectedEventType (t : String) (s : FeedState) : FeedState :=
  resetDisplayCount { s with selectedEventType := t }

/-- Setting the event-source filter signal, followed by the
`resetDisplayCount` effect. -/
def setSelectedEventSource (src : String) (s : FeedState) : FeedState :=
  resetDisplayCount { s with selectedEventSource := src }

/-- A value in a request-parameter object: JavaScript `number | string`.
Absence of a key is modelled by the key simply not occurring in the list,
exactly as the object spreads / `filterParams` leave absent keys out. -/
inductive ParamVal where
  | num (n : Nat)
  | str (s : String)
deriving Repr, DecidableEq

/-- The request-parameter object built in the `allEvents` `httpResource`:
`limit` always, `event_type` / `event_source` only when the corresponding
filter is not the `"all"` sentinel. -/
def requestParamList (s : FeedState) : List (String × ParamVal) :=
  [("limit", ParamVal.num s.limit)] ++
  (if s.selectedEventType ≠ "all" then
     [("event_type", ParamVal.str s.selectedEventType)]
   else []) ++
  (if s.selectedEventSource ≠ "all" then
     [("event_source", ParamVal.str s.selectedEventSource)]
   else [])

/-- First statement of the route-parameter seeding in
`EventsComponent.ngOnInit`: apply the `type` query parameter to the type
filter when it is truthy and a known `EventType` value.  Route parameters
are strings or absent. -/
def applyTypeParam (typeParam : Option String) (s : FeedState) : FeedState :=
  match typeParam with
  | some t =>
      if t ≠ "" ∧ t ∈ eventTypeValues then { s with selectedEventType := t }
      else s
  | none => s

/-- Second statement of the route-parameter seeding in
`EventsComponent.ngOnInit`: copy a truthy `media_id` parameter into the
search query (and the search form). -/
def applyMediaIdParam (mediaIdParam : Option String) (s : FeedState) :
    FeedState :=
  match mediaIdParam with
  | some m => if m ≠ "" then { s with searchQuery := m } else s
  | none => s

/-- The route-parameter seeding in `EventsComponent.ngOnInit`: the `type`
parameter is examined first, then `media_id`. -/
def applyRouteParams (typeParam mediaIdParam : Option String)
    (s : FeedState) : FeedState :=
  applyMediaIdParam mediaIdParam (applyTypeParam typeParam s)

/-- Embedding of `EventsComponent.getEventIcon`. -/
def getEventIcon (eventType : String) : String :=
  if eventType = "media_added" then "add_circle"
  else if eventType = "monitor_changed" then "visibility"
  else if eventType = "youtube_id_changed" then "link"
  else if eventType = "trailer_detected" then "search"
  else if eventType = "trailer_downloaded" then "download"
  else if eventType = "trailer_deleted" then "delete"
  else if eventType = "download_skipped" then "block"
  else "info"

/-- Embedding of `MediaEventsComponent.getEventDescription`: the
per-entity description mapping with the monitoring enabled/disabled and
YouTube-ID set/cleared special cases. -/
def getEventDescription (e : EventRead) : String :=
  if e.event_type = "media_added" then
    "Media was added to the library"
  else if e.event_type = "monitor_changed" then
    if e.old_value = some "true" ∧ e.new_value = some "false" then
      "Monitoring disabled"
    else if e.old_value = some "false" ∧ e.new_value = some "true" then
      "Monitoring enabled"
    else
      "Monitor: " ++ interp e.old_value ++ " → " ++ interp e.new_value
  else if e.event_type = "youtube_id_changed" then
    if truthy e.old_value = false ∧ truthy e.new_value = true then
      "YouTube ID set to " ++ interp e.new_value
    else if truthy e.old_value = true ∧ truthy e.new_value = false then
      "YouTube ID cleared (was " ++ interp e.old_value ++ ")"
    else
      "YouTube ID: " ++ jsOr e.old_value "none" ++ " → " ++
        jsOr e.new_value "none"
  else if e.event_type = "trailer_detected" then
    if truthy e.new_value then "Trailer detected: " ++ interp e.new_value
    else "Existing trailer detected"
  else if e.event_type = "trailer_downloaded" then
    if truthy e.new_value then "Downloaded from " ++ interp e.new_value
    else "Trailer downloaded"
  else if e.event_type = "trailer_deleted" then
    if truthy e.new_value then "Deleted: " ++ interp e.new_value
    else "Trailer deleted"
  else if e.event_type = "download_skipped" then
    jsOr e.new_value "Download was skipped"
  else ""

/-- The description rules of the spec's section 4.4 mapping table, row by
row, written from the spec's words (for comparison against
`getEventDescription`): media_added → "Added from {new_value}";
monitor_changed with the enabled/disabled special cases; youtube_id_changed
with the set/cleared special cases; trailer_detected / trailer_downloaded /
trailer_deleted / download_skipped keyed on `new_value` being present;
anything unrecognized → the empty string. -/
def specDescriptionTable (e : EventRead) : String :=
  if e.event_type = "media_added" then
    "Added from " ++ interp e.new_value
  else if e.event_type = "monitor_changed" then
    if e.old_value = some "true" ∧ e.new_value = some "false" then
      "Monitoring disabled"
    else if e.old_value = some "false" ∧ e.new_value = some "true" then
      "Monitoring enabled"
    else
      "Monitor: " ++ interp e.old_value ++ " → " ++ interp e.new_value
  else if e.event_type = "youtube_id_changed" then
    if truthy e.old_value = false ∧ truthy e.new_value = true then
      "YouTube ID set to " ++ interp e.new_value
    else if truthy e.old_value = true ∧ truthy e.new_value = false then
      "YouTube ID cleared (was " ++ interp e.old_value ++ ")"
    else
      "YouTube ID: " ++ jsOr e.old_value "none" ++ " → " ++
        jsOr e.new_value "none"
  else if e.event_type = "trailer_detected" then
    if truthy e.new_value then "Trailer detected: " ++ interp e.new_value
    else "Existing trailer detected"
  else if e.event_type = "trailer_downloaded" then
    if truthy e.new_value then "Downloaded from " ++ interp e.new_value
    else "Trailer downloaded"
  else if e.event_type = "trailer_deleted" then
    if truthy e.new_value then "Deleted: " ++ interp e.new_value
    else "Trailer deleted"
  else if e.event_type = "download_skipped" then
    jsOr e.new_value "Download was skipped"
  else ""

/-- The spec table amended at its one divergence from the code: the
media_added row reads "Media was added to the library" (as the code
produces) instead of "Added from {new_value}".  Every other row is the
table's rule unchanged. -/
def specDescriptionTableAmended (e : EventRead) : String :=
  if e.event_type = "media_added" then
    "Media was added to the library"
  else specDescriptionTable e

/-- The retention rule of the spec (as amended): keep every event when the
trimmed lowercased query is empty, and otherwise keep an event exactly when
the lowercased query — not trimmed — is a substring of `source_detail`,
`old_value`, `new_value`, `event_type` with underscores replaced by
spaces, or the stored title of the owning media, each lowercased. -/
def retainPred (s : FeedState) (e : EventRead) : Bool :=
  (trimStr (lowerStr s.searchQuery) == "") ||
  (includesStr (lowerStr e.source_detail) (lowerStr s.searchQuery) ||
   includesStr (lowerStr (e.old_value.getD "")) (lowerStr s.searchQuery) ||
   includesStr (lowerStr (e.new_value.getD "")) (lowerStr s.searchQuery) ||
   includesStr (replaceUS (lowerStr e.event_type)) (lowerStr s.searchQuery) ||
   includesStr (lowerStr ((titleLookup s.mediaTitles e.media_id).getD ""))
     (lowerStr s.searchQuery))

/-- The `EventType` enum of the client code: the typed values a caller of
`EventsService` can put into the `event_type` parameter. -/
inductive EventType where
  | media_added
  | monitor_changed
  | youtube_id_changed
  | trailer_detected
  | trailer_downloaded
  | trailer_deleted
  | download_skipped
deriving Repr, DecidableEq

/-- The string value of each `EventType` enum member. -/
def EventType.str : EventType → String
  | .media_added => "media_added"
  | .monitor_changed => "monitor_changed"
  | .youtube_id_changed => "youtube_id_changed"
  | .trailer_detected => "trailer_detected"
  | .trailer_downloaded => "trailer_downloaded"
  | .trailer_deleted => "trailer_deleted"
  | .download_skipped => "download_skipped"

/-- The `EventSource` enum of the client code. -/
inductive EventSource where
  | user
  | system
deriving Repr, DecidableEq

/-- The string value of each `EventSource` enum member. -/
def EventSource.str : EventSource → String
  | .user => "user"
  | .system => "system"

/-- The optional-parameter record of `EventsService.getEvents`
(`EventParams` in the source): every field may be absent. -/
structure EventParams where
  limit : Option Nat
  offset : Option Nat
  event_type : Option EventType
  event_source : Option EventSource
  media_id : Option Nat
deriving Repr, DecidableEq

/-- The optional-parameter record of `EventsService.getEventsByMediaId`. -/
structure MediaPageParams where
  limit : Option Nat
  offset : Option Nat
deriving Repr, DecidableEq

/-- JS `Object.entries` of an `EventParams` record, with each value as it
would sit in the object: a number, an enum string, or absent. -/
def eventParamEntries (p : EventParams) : List (String × Option ParamVal) :=
  [("limit", p.limit.map ParamVal.num),
   ("offset", p.offset.map ParamVal.num),
   ("event_type", p.event_type.map (fun t => ParamVal.str t.str)),
   ("event_source", p.event_source.map (fun sc => ParamVal.str sc.str)),
   ("media_id", p.media_id.map ParamVal.num)]

/-- JS `Object.entries` of a `MediaPageParams` record. -/
def mediaPageParamEntries (p : MediaPageParams) :
    List (String × Option ParamVal) :=
  [("limit", p.limit.map ParamVal.num),
   ("offset", p.offset.map ParamVal.num)]

/-- Embedding of `filterParams` in the events service: drop every entry
whose value is `undefined` or `null`, keep the rest unchanged
(`Object.fromEntries(Object.entries(params).filter(...))`). -/
def filterParams (l : List (String × Option ParamVal)) :
    List (String × ParamVal) :=
  l.filterMap (fun kv => kv.2.map (fun v => (kv.1, v)))

/-- The request parameters `EventsService.getEvents` hands to the HTTP
client for a given parameter record. -/
def getEventsParams (p : EventParams) : List (String × ParamVal) :=
  filterParams (eventParamEntries p)

/-- The request parameters `EventsService.getEventsByMediaId` hands to the
HTTP client for a given parameter record. -/
def getEventsByMediaIdParams (p : MediaPageParams) :
    List (String × ParamVal) :=
  filterParams (mediaPageParamEntries p)

/-! ## Concrete example data -/

/-- A concrete fetched event (a media_added record from a sync). -/
def evC1 : EventRead :=
  { id := 1, media_id := 1, event_type := "media_added", source := "system"
  , source_detail := "radarr", old_value := none, new_value := some "Radarr"
  , created_at := "t" }

/-- A reachable feed state: the user searched "zzz" (matching no event),
the server returned a full window of 500 events, the display count sits at
its reset value 50 and the fetch limit at its initial 500. -/
def sC1 : FeedState :=
  { searchQuery := "zzz"
  , selectedEventType := "all"
  , selectedEventSource := "all"
  , displayCount := 50
  , limit := 500
  , allEvents := List.replicate 500 evC1
  , mediaTitles := [] }

/-- A feed state whose display count covers the single fetched event and
whose raw count has reached the fetch limit. -/
def sB1 : FeedState :=
  { searchQuery := ""
  , selectedEventType := "all"
  , selectedEventSource := "all"
  , displayCount := 50
  , limit := 1
  , allEvents := [evC1]
  , mediaTitles := [] }

/-- A concrete event whose `source_detail` is exactly "x". -/
def eC2 : EventRead :=
  { id := 1, media_id := 1, event_type := "media_added", source := "user"
  , source_detail := "x", old_value := none, new_value := none
  , created_at := "t" }

/-- A feed state whose search query carries a leading space (" x") over a
one-event list whose `source_detail` is "x". -/
def sC2 : FeedState :=
  { searchQuery := " x"
  , selectedEventType := "all"
  , selectedEventSource := "all"
  , displayCount := 50
  , limit := 500
  , allEvents := [eC2]
  , mediaTitles := [] }

/-- A concrete media_added event with a present `new_value`. -/
def eC8 : EventRead :=
  { id := 1, media_id := 2, event_type := "media_added", source := "system"
  , source_detail := "radarr", old_value := none, new_value := some "Radarr"
  , created_at := "t" }

/-- The feed state after the user picks the monitor_changed type filter. -/
def sC6 : FeedState :=
  { initialState with selectedEventType := "monitor_changed" }

/-- A concrete parameter record for `getEvents` with two present fields. -/
def pC3 : EventParams :=
  { limit := some 100, offset := none
  , event_type := some EventType.monitor_changed, event_source := none
  , media_id := none }

/-- A concrete parameter record for `getEventsByMediaId` with only the
offset present. -/
def qC3 : MediaPageParams := { limit := none, offset := some 5 }

/-! ## Helper lemmas -/

/-- A string has positive length exactly when it is not the empty string. -/
theorem strLength_pos (s : String) : 0 < s.length ↔ s ≠ "" := by
  obtain ⟨l⟩ := s
  cases l <;> simp [String.length, String.ext_iff]

/-- Membership in the filtered parameter list is membership of the present
entry in the raw entry list. -/
theorem mem_filterParams (l : List (String × Option ParamVal)) (k : String)
    (v : ParamVal) : (k, v) ∈ filterParams l ↔ (k, some v) ∈ l := by
  simp only [filterParams, List.mem_filterMap, Option.map_eq_some']
  constructor
  · rintro ⟨⟨k', v'⟩, hmem, w, hw, heq⟩
    cases heq
    cases hw
    exact hmem
  · intro hmem
    exact ⟨(k, some v), hmem, v, rfl, rfl⟩

/-- No value of the `EventType` enum is the empty string. -/
theorem eventTypeStr_ne_empty (t : EventType) : t.str ≠ "" := by
  cases t <;> decide

/-- No value of the `EventSource` enum is the empty string. -/
theorem eventSourceStr_ne_empty (c : EventSource) : c.str ≠ "" := by
  cases c <;> decide

/-- Every known event-type value is a non-empty string. -/
theorem mem_eventTypeValues_ne_empty : ∀ t ∈ eventTypeValues, t ≠ "" := by
  decide

/-- An optional value maps onto a present value exactly when it is present
with a matching image (the membership shape produced by `filterParams`). -/
theorem someEqMapIff {α : Type} (f : α → ParamVal) (x : Option α)
    (v : ParamVal) : some v = x.map f ↔ ∃ a, x = some a ∧ v = f a := by
  cases x <;> simp [eq_comm]

/-- Applying the `type` route parameter touches no field but the selected
event type. -/
theorem applyTypeParam_preserves (tp : Option String) (s : FeedState) :
    (applyTypeParam tp s).searchQuery = s.searchQuery ∧
    (applyTypeParam tp s).selectedEventSource = s.selectedEventSource ∧
    (applyTypeParam tp s).displayCount = s.displayCount ∧
    (applyTypeParam tp s).limit = s.limit ∧
    (applyTypeParam tp s).allEvents = s.allEvents := by
  cases tp with
  | none => exact ⟨rfl, rfl, rfl, rfl, rfl⟩
  | some t =>
      by_cases h : t ≠ "" ∧ t ∈ eventTypeValues <;> simp [applyTypeParam, h]

/-- Applying the `media_id` route parameter touches no field but the
search query. -/
theorem applyMediaIdParam_preserves (mp : Option String) (s : FeedState) :
    (applyMediaIdParam mp s).selectedEventType = s.selectedEventType ∧
    (applyMediaIdParam mp s).selectedEventSource = s.selectedEventSource ∧
    (applyMediaIdParam mp s).displayCount = s.displayCount ∧
    (applyMediaIdParam mp s).limit = s.limit ∧
    (applyMediaIdParam mp s).allEvents = s.allEvents := by
  cases mp with
  | none => exact ⟨rfl, rfl, rfl, rfl, rfl⟩
  | some m => by_cases h : m = "" <;> simp [applyMediaIdParam, h]

/-! ## Claims -/

/-- C5 amended: in every state of the feed, the rendered filtered list
never exceeds `displayCount` (the spec stated the inequality the other
way around). -/
theorem filteredEvents_length_le_displayCount (s : FeedState) :
    (filteredEvents s).length ≤ s.displayCount := by
  simp only [filteredEvents]
  exact List.length_take_le _ _

/-- C5 counterexample: in the component's initial state (fifty-row display
window, no events fetched yet) `displayCount` is 50 while `filteredEvents`
is empty, so the claim's inequality
`displayCount ≤ filteredEvents.length` fails. -/
theorem displayCount_can_exceed_filtered :
    ¬ initialState.displayCount ≤ (filteredEvents initialState).length := by
  decide

/-- C7: setting the search query, the type filter or the source filter is
followed by the `resetDisplayCount` effect, so each of the three changes
leaves `displayCount` at its initial value 50. -/
theorem filter_change_resets_displayCount (q t src : String) (s : FeedState) :
    (setSearchQuery q s).displayCount = 50 ∧
    (setSelectedEventType t s).displayCount = 50 ∧
    (setSelectedEventSource src s).displayCount = 50 := by
  refine ⟨rfl, rfl, rfl⟩

/-- C9: the icon mapping returns exactly the spec table's icon for each of
the seven known event types, and `info` for every unrecognized value. -/
theorem getEventIcon_spec :
    (getEventIcon "media_added" = "add_circle" ∧
     getEventIcon "monitor_changed" = "visibility" ∧
     getEventIcon "youtube_id_changed" = "link" ∧
     getEventIcon "trailer_detected" = "search" ∧
     getEventIcon "trailer_downloaded" = "download" ∧
     getEventIcon "trailer_deleted" = "delete" ∧
     getEventIcon "download_skipped" = "block") ∧
    ∀ t, t ∉ eventTypeValues → getEventIcon t = "info" := by
  refine ⟨by decide, ?_⟩
  intro t ht
  simp only [eventTypeValues, List.mem_cons, List.not_mem_nil, or_false,
    not_or] at ht
  obtain ⟨h1, h2, h3, h4, h5, h6, h7⟩ := ht
  simp [getEventIcon, h1, h2, h3, h4, h5, h6, h7]

/-- C9 witness: the unrecognized-value clause of `getEventIcon_spec`
applied at the concrete value "bogus". -/
theorem getEventIcon_spec_witness : getEventIcon "bogus" = "info" :=
  getEventIcon_spec.2 "bogus" (by decide)

/-- C10: `getMediaTitle` falls back to the placeholder both when the id is
unbound and when it is bound to the empty string, and returns the stored
title exactly when it is non-empty. -/
theorem getMediaTitle_spec (m : List (Nat × String)) (id : Nat) :
    (titleLookup m id = none →
      getMediaTitle m id = "Media #" ++ toString id) ∧
    (titleLookup m id = some "" →
      getMediaTitle m id = "Media #" ++ toString id) ∧
    (∀ t, titleLookup m id = some t → t ≠ "" → getMediaTitle m id = t) := by
  refine ⟨?_, ?_, ?_⟩
  · intro h
    simp [getMediaTitle, jsOr, h]
  · intro h
    simp [getMediaTitle, jsOr, h]
  · intro t h ht
    simp [getMediaTitle, jsOr, h, ht]

/-- C10 witness: `getMediaTitle_spec` applied on the concrete map binding
3 to "Inception" and 5 to the empty string: id 4 is unbound (placeholder),
id 5 is bound to "" (placeholder), id 3 has a non-empty title. -/
theorem getMediaTitle_spec_witness :
    getMediaTitle [(3, "Inception"), (5, "")] 4 = "Media #" ++ toString 4 ∧
    getMediaTitle [(3, "Inception"), (5, "")] 5 = "Media #" ++ toString 5 ∧
    getMediaTitle [(3, "Inception"), (5, "")] 3 = "Inception" :=
  ⟨(getMediaTitle_spec [(3, "Inception"), (5, "")] 4).1 (by decide),
   (getMediaTitle_spec [(3, "Inception"), (5, "")] 5).2.1 (by decide),
   (getMediaTitle_spec [(3, "Inception"), (5, "")] 3).2.2 "Inception"
     (by decide) (by decide)⟩

/-- C1 amended: `loadMore` compares the display count against the raw
fetched count.  When the display count already covers every raw fetched
event: the fetch limit grows by 500 (display count unchanged) if the raw
count has reached it, and nothing changes otherwise.  When the display
count does not yet cover the raw fetched events, the display count grows
by 30 and the limit is unchanged. -/
theorem loadMore_spec (s : FeedState) :
    (s.displayCount ≥ s.allEvents.length → s.allEvents.length ≥ s.limit →
      loadMore s = { s with limit := s.limit + 500 }) ∧
    (s.displayCount ≥ s.allEvents.length → s.allEvents.length < s.limit →
      loadMore s = s) ∧
    (s.displayCount < s.allEvents.length →
      loadMore s = { s with displayCount := s.displayCount + 30 }) := by
  refine ⟨?_, ?_, ?_⟩
  · intro h1 h2
    simp [loadMore, h1, h2]
  · intro h1 h2
    simp [loadMore, h1, Nat.not_le.mpr h2]
  · intro h
    simp [loadMore, Nat.not_le.mpr h]

set_option maxRecDepth 100000 in
/-- C1 counterexample: in the reachable state `sC1` the display count (50)
covers every currently filtered event (the query matches none), and the
raw fetched count (500) has reached the fetch limit (500); the claim says
`loadMore` must grow the limit to 1000 and keep the display count at 50,
but the code leaves the limit at 500 and grows the display count to 80,
because its comparison uses the raw fetched list, not the filtered one. -/
theorem loadMore_claim_counterexample :
    (filteredEvents sC1).length ≤ sC1.displayCount ∧
    (sC1.allEvents.filter
      (matchesQuery sC1.mediaTitles (lowerStr sC1.searchQuery))).length ≤
      sC1.displayCount ∧
    sC1.allEvents.length ≥ sC1.limit ∧
    (loadMore sC1).limit = sC1.limit ∧
    (loadMore sC1).displayCount = sC1.displayCount + 30 := by
  decide

set_option maxRecDepth 100000 in
/-- C1 witness: `loadMore_spec` applied at `sB1` (display count covers the
raw list whose length reached the limit: the limit grows by 500) and at
`sC1` (display count below the raw count: 30 more rows revealed). -/
theorem loadMore_spec_witness :
    (sB1.displayCount ≥ sB1.allEvents.length ∧
     sB1.allEvents.length ≥ sB1.limit ∧
     loadMore sB1 = { sB1 with limit := sB1.limit + 500 }) ∧
    (sC1.displayCount < sC1.allEvents.length ∧
     loadMore sC1 = { sC1 with displayCount := sC1.displayCount + 30 }) :=
  ⟨⟨by decide, by decide, (loadMore_spec sB1).1 (by decide) (by decide)⟩,
   ⟨by decide, (loadMore_spec sC1).2.2 (by decide)⟩⟩

/-- C2 amended: `filteredEvents` is the raw fetched list filtered by the
retention rule and truncated to the display count — the rule keeps every
event when the trimmed query is empty, and otherwise keeps exactly the
events one of whose searchable fields contains the lowercased query
without trimming — and the result is a sublist of the raw fetched list. -/
theorem filteredEvents_spec (s : FeedState) :
    filteredEvents s =
      (s.allEvents.filter (retainPred s)).take s.displayCount ∧
    (filteredEvents s).Sublist s.allEvents := by
  have key : filteredEvents s =
      (s.allEvents.filter (retainPred s)).take s.displayCount := by
    by_cases h : trimStr (lowerStr s.searchQuery) = ""
    · have hc : ¬(lowerStr s.searchQuery ≠ "" ∧
          (trimStr (lowerStr s.searchQuery)).length > 0) := by
        simp [h]
      unfold filteredEvents
      rw [if_neg hc, List.filter_eq_self.mpr]
      intro a _
      simp [retainPred, h]
    · have hne : lowerStr s.searchQuery ≠ "" := by
        intro he
        apply h
        rw [he]
        decide
      have hlen : (trimStr (lowerStr s.searchQuery)).length > 0 :=
        (strLength_pos _).mpr h
      unfold filteredEvents
      rw [if_pos ⟨hne, hlen⟩]
      congr 1
      apply List.filter_congr
      intro a _
      simp [retainPred, matchesQuery, beq_iff_eq, h]
  refine ⟨key, ?_⟩
  rw [key]
  exact (List.take_sublist _ _).trans (List.filter_sublist _)

/-- C2 counterexample: with the query " x" (leading space) over one event
whose `source_detail` is "x", the trimmed lowercased query "x" is
non-empty and is a substring of `source_detail`, so the claim retains the
event; the code filters with the untrimmed query " x" and drops it
(truncation is not involved: the list is shorter than the display
count). -/
theorem filteredEvents_claim_counterexample :
    trimStr (lowerStr sC2.searchQuery) ≠ "" ∧
    includesStr (lowerStr eC2.source_detail)
      (trimStr (lowerStr sC2.searchQuery)) = true ∧
    eC2 ∈ sC2.allEvents ∧
    sC2.allEvents.length ≤ sC2.displayCount ∧
    filteredEvents sC2 = [] := by
  decide

/-- C3: for both list operations of the events service, a key appears in
the outgoing request parameters exactly when the corresponding field of
the parameter record is present, it carries that present value unchanged,
and no forwarded value is an empty-string placeholder (absent values are
omitted keys, never null placeholders). -/
theorem filterParams_spec (p : EventParams) (q : MediaPageParams) :
    (∀ v, ("limit", v) ∈ getEventsParams p ↔
      ∃ n, p.limit = some n ∧ v = ParamVal.num n) ∧
    (∀ v, ("offset", v) ∈ getEventsParams p ↔
      ∃ n, p.offset = some n ∧ v = ParamVal.num n) ∧
    (∀ v, ("event_type", v) ∈ getEventsParams p ↔
      ∃ t, p.event_type = some t ∧ v = ParamVal.str t.str) ∧
    (∀ v, ("event_source", v) ∈ getEventsParams p ↔
      ∃ c, p.event_source = some c ∧ v = ParamVal.str c.str) ∧
    (∀ v, ("media_id", v) ∈ getEventsParams p ↔
      ∃ n, p.media_id = some n ∧ v = ParamVal.num n) ∧
    (∀ v, ("limit", v) ∈ getEventsByMediaIdParams q ↔
      ∃ n, q.limit = some n ∧ v = ParamVal.num n) ∧
    (∀ v, ("offset", v) ∈ getEventsByMediaIdParams q ↔
      ∃ n, q.offset = some n ∧ v = ParamVal.num n) ∧
    (∀ k v, (k, v) ∈ getEventsParams p → v ≠ ParamVal.str "") ∧
    (∀ k v, (k, v) ∈ getEventsByMediaIdParams q → v ≠ ParamVal.str "") := by
  refine ⟨?_, ?_, ?_, ?_, ?_, ?_, ?_, ?_, ?_⟩
  · intro v
    rw [getEventsParams, mem_filterParams]
    simp [eventParamEntries, someEqMapIff]
  · intro v
    rw [getEventsParams, mem_filterParams]
    simp [eventParamEntries, someEqMapIff]
  · intro v
    rw [getEventsParams, mem_filterParams]
    simp [eventParamEntries, someEqMapIff]
  · intro v
    rw [getEventsParams, mem_filterParams]
    simp [eventParamEntries, someEqMapIff]
  · intro v
    rw [getEventsParams, mem_filterParams]
    simp [eventParamEntries, someEqMapIff]
  · intro v
    rw [getEventsByMediaIdParams, mem_filterParams]
    simp [mediaPageParamEntries, someEqMapIff]
  · intro v
    rw [getEventsByMediaIdParams, mem_filterParams]
    simp [mediaPageParamEntries, someEqMapIff]
  · intro k v hmem
    rw [getEventsParams, mem_filterParams] at hmem
    simp only [eventParamEntries, List.mem_cons, List.not_mem_nil, or_false,
      Prod.mk.injEq, someEqMapIff] at hmem
    rcases hmem with ⟨-, n, -, rfl⟩ | ⟨-, n, -, rfl⟩ | ⟨-, t, -, rfl⟩ |
      ⟨-, c, -, rfl⟩ | ⟨-, n, -, rfl⟩
    · simp
    · simp
    · simp [eventTypeStr_ne_empty t]
    · simp [eventSourceStr_ne_empty c]
    · simp
  · intro k v hmem
    rw [getEventsByMediaIdParams, mem_filterParams] at hmem
    simp only [mediaPageParamEntries, List.mem_cons, List.not_mem_nil,
      or_false, Prod.mk.injEq, someEqMapIff] at hmem
    rcases hmem with ⟨-, n, -, rfl⟩ | ⟨-, n, -, rfl⟩
    · simp
    · simp

/-- C3 witness: `filterParams_spec` applied at the concrete records `pC3`
(limit and event_type present, the rest absent) and `qC3` (offset
present): present keys appear with their values, the absent offset of
`pC3` appears with no value at all, and a forwarded value is not the
empty placeholder. -/
theorem filterParams_spec_witness :
    ("limit", ParamVal.num 100) ∈ getEventsParams pC3 ∧
    ("offset", ParamVal.num 0) ∉ getEventsParams pC3 ∧
    ("offset", ParamVal.num 5) ∈ getEventsByMediaIdParams qC3 ∧
    ParamVal.num 100 ≠ ParamVal.str "" := by
  have h1 : ("limit", ParamVal.num 100) ∈ getEventsParams pC3 :=
    ((filterParams_spec pC3 qC3).1 _).mpr ⟨100, rfl, rfl⟩
  refine ⟨h1, ?_,
    ((filterParams_spec pC3 qC3).2.2.2.2.2.2.1 _).mpr ⟨5, rfl, rfl⟩,
    (filterParams_spec pC3 qC3).2.2.2.2.2.2.2.1 _ _ h1⟩
  intro h
  obtain ⟨n, hn, -⟩ := ((filterParams_spec pC3 qC3).2.1 _).mp h
  simp [pC3] at hn

/-- C4 amended: at startup the `type` navigation parameter is applied to
the type filter only when it is a known event-type value — unknown values
are silently ignored — while any non-empty `media_id` value, numeric or
not, is copied into the search query (only an absent or empty `media_id`
leaves the query unchanged); no other filter state changes. -/
theorem applyRouteParams_spec (tp mp : Option String) (s : FeedState) :
    ((∀ t, tp = some t → t ∈ eventTypeValues →
        (applyRouteParams tp mp s).selectedEventType = t) ∧
     (∀ t, tp = some t → t ∉ eventTypeValues →
        (applyRouteParams tp mp s).selectedEventType =
          s.selectedEventType) ∧
     (tp = none →
        (applyRouteParams tp mp s).selectedEventType =
          s.selectedEventType)) ∧
    ((∀ m, mp = some m → m ≠ "" →
        (applyRouteParams tp mp s).searchQuery = m) ∧
     (∀ m, mp = some m → m = "" →
        (applyRouteParams tp mp s).searchQuery = s.searchQuery) ∧
     (mp = none →
        (applyRouteParams tp mp s).searchQuery = s.searchQuery)) ∧
    ((applyRouteParams tp mp s).selectedEventSource =
        s.selectedEventSource ∧
     (applyRouteParams tp mp s).displayCount = s.displayCount ∧
     (applyRouteParams tp mp s).limit = s.limit ∧
     (applyRouteParams tp mp s).allEvents = s.allEvents) := by
  refine ⟨⟨?_, ?_, ?_⟩, ⟨?_, ?_, ?_⟩, ?_, ?_, ?_, ?_⟩
  · rintro t rfl hmem
    rw [applyRouteParams, (applyMediaIdParam_preserves _ _).1]
    simp [applyTypeParam, hmem, mem_eventTypeValues_ne_empty t hmem]
  · rintro t rfl hmem
    rw [applyRouteParams, (applyMediaIdParam_preserves _ _).1]
    simp [applyTypeParam, hmem]
  · rintro rfl
    rw [applyRouteParams, (applyMediaIdParam_preserves _ _).1]
    rfl
  · rintro m rfl hm
    rw [applyRouteParams]
    simp [applyMediaIdParam, hm]
  · rintro m rfl rfl
    rw [applyRouteParams]
    simp [applyMediaIdParam]
    exact (applyTypeParam_preserves _ _).1
  · rintro rfl
    rw [applyRouteParams]
    exact (applyTypeParam_preserves _ _).1
  · rw [applyRouteParams, (applyMediaIdParam_preserves _ _).2.1]
    exact (applyTypeParam_preserves _ _).2.1
  · rw [applyRouteParams, (applyMediaIdParam_preserves _ _).2.2.1]
    exact (applyTypeParam_preserves _ _).2.2.1
  · rw [applyRouteParams, (applyMediaIdParam_preserves _ _).2.2.2.1]
    exact (applyTypeParam_preserves _ _).2.2.2.1
  · rw [applyRouteParams, (applyMediaIdParam_preserves _ _).2.2.2.2]
    exact (applyTypeParam_preserves _ _).2.2.2.2

/-- C4 counterexample: with navigation parameters type="bogus" and
media_id="abc" (non-numeric: no character is a digit), the unknown type is
ignored as the claim says, but the non-numeric media_id is not silently
ignored — it changes the search query from "" to "abc". -/
theorem routeParams_claim_counterexample :
    ("abc".data.all (fun c => !c.isDigit)) = true ∧
    (applyRouteParams (some "bogus") (some "abc")
      initialState).selectedEventType = initialState.selectedEventType ∧
    (applyRouteParams (some "bogus") (some "abc")
      initialState).searchQuery = "abc" ∧
    (applyRouteParams (some "bogus") (some "abc")
      initialState).searchQuery ≠ initialState.searchQuery := by
  decide

/-- C4 witness: `applyRouteParams_spec` applied at the concrete
parameters type="monitor_changed" (a known value, applied) and
media_id="abc" (non-empty, copied into the query) on the initial state. -/
theorem applyRouteParams_spec_witness :
    (applyRouteParams (some "monitor_changed") (some "abc")
      initialState).selectedEventType = "monitor_changed" ∧
    (applyRouteParams (some "monitor_changed") (some "abc")
      initialState).searchQuery = "abc" ∧
    (applyRouteParams (some "monitor_changed") (some "abc")
      initialState).limit = initialState.limit :=
  ⟨(applyRouteParams_spec (some "monitor_changed") (some "abc")
      initialState).1.1 "monitor_changed" rfl (by decide),
   (applyRouteParams_spec (some "monitor_changed") (some "abc")
      initialState).2.1.1 "abc" rfl (by decide),
   (applyRouteParams_spec (some "monitor_changed") (some "abc")
      initialState).2.2.2.2.1⟩

/-- C6: the derived request parameters always carry `limit`, carry
`event_type` exactly when the selected type is not the "all" sentinel
(with the selected value), likewise `event_source`, and no key ever
carries the "all" sentinel as its value (absent filters are omitted keys,
never undefined values). -/
theorem requestParams_spec (s : FeedState) :
    ("limit", ParamVal.num s.limit) ∈ requestParamList s ∧
    (∀ v, ("event_type", v) ∈ requestParamList s ↔
      s.selectedEventType ≠ "all" ∧
        v = ParamVal.str s.selectedEventType) ∧
    (∀ v, ("event_source", v) ∈ requestParamList s ↔
      s.selectedEventSource ≠ "all" ∧
        v = ParamVal.str s.selectedEventSource) ∧
    (∀ k v, (k, v) ∈ requestParamList s → v ≠ ParamVal.str "all") := by
  refine ⟨?_, ?_, ?_, ?_⟩
  · by_cases h1 : s.selectedEventType = "all" <;>
    by_cases h2 : s.selectedEventSource = "all" <;>
    simp [requestParamList, h1, h2]
  · intro v
    by_cases h1 : s.selectedEventType = "all" <;>
    by_cases h2 : s.selectedEventSource = "all" <;>
    simp [requestParamList, h1, h2]
  · intro v
    by_cases h1 : s.selectedEventType = "all" <;>
    by_cases h2 : s.selectedEventSource = "all" <;>
    simp [requestParamList, h1, h2]
  · intro k v hmem
    rw [requestParamList] at hmem
    rcases List.mem_append.mp hmem with hLT | hS
    · rcases List.mem_append.mp hLT with hL | hT
      · have h := List.mem_singleton.mp hL
        rw [Prod.mk.injEq] at h
        rw [h.2]
        intro hc
        exact ParamVal.noConfusion hc
      · by_cases h1 : s.selectedEventType = "all"
        · rw [if_neg (not_not_intro h1)] at hT
          exact absurd hT (List.not_mem_nil _)
        · rw [if_pos h1] at hT
          have h := List.mem_singleton.mp hT
          rw [Prod.mk.injEq] at h
          rw [h.2]
          intro hc
          injection hc with hsel
          exact h1 hsel
    · by_cases h2 : s.selectedEventSource = "all"
      · rw [if_neg (not_not_intro h2)] at hS
        exact absurd hS (List.not_mem_nil _)
      · rw [if_pos h2] at hS
        have h := List.mem_singleton.mp hS
        rw [Prod.mk.injEq] at h
        rw [h.2]
        intro hc
        injection hc with hsel
        exact h2 hsel

/-- C6 witness: `requestParams_spec` applied at the state `sC6` whose type
filter is monitor_changed and whose source filter is "all": the type key
is present with the selected value, the source key is absent, and the
forwarded value is not the sentinel. -/
theorem requestParams_spec_witness :
    ("event_type", ParamVal.str "monitor_changed") ∈ requestParamList sC6 ∧
    ("event_source", ParamVal.str "all") ∉ requestParamList sC6 ∧
    ParamVal.str "monitor_changed" ≠ ParamVal.str "all" := by
  have hmem : ("event_type", ParamVal.str "monitor_changed") ∈
      requestParamList sC6 :=
    ((requestParams_spec sC6).2.1 _).mpr ⟨by decide, by decide⟩
  refine ⟨hmem, ?_, (requestParams_spec sC6).2.2.2 _ _ hmem⟩
  intro h
  exact (((requestParams_spec sC6).2.2.1 _).mp h).1 (by decide)

/-- C8 amended: the per-entity description function agrees with the
spec's mapping table on every event once the table's media_added row is
corrected to "Media was added to the library"; in particular the
monitoring enabled/disabled, YouTube-ID set/cleared and unrecognized-type
rules hold exactly as the table states them. -/
theorem getEventDescription_spec (e : EventRead) :
    getEventDescription e = specDescriptionTableAmended e := by
  by_cases h : e.event_type = "media_added" <;>
    simp [getEventDescription, specDescriptionTableAmended,
      specDescriptionTable, h]

/-- C8 counterexample: on a media_added event with `new_value` "Radarr"
the code returns "Media was added to the library" while the spec's table
prescribes "Added from Radarr", so the claim's table row fails. -/
theorem getEventDescription_claim_counterexample :
    getEventDescription eC8 = "Media was added to the library" ∧
    specDescriptionTable eC8 = "Added from Radarr" ∧
    getEventDescription eC8 ≠ specDescriptionTable eC8 := by
  decide

end Trailarr
